import Mathlib

/-!
Verification development for the SNMP trap ingestion and dedup-dispatch core
of the baize-monitor repository.

The Go sources are shallowly embedded: bytes are `Nat` (values `< 256` on the
wire), Go byte strings (communities, version labels) are `List Nat`, Go
`time.Duration` is an `Int` counting nanoseconds, fallible code returns
`Except`/`Option`.  External collaborators (the gosnmp codec, the UDP socket,
the Redis lock backend) are passed in as oracle functions, mirroring the
interface boundary of the source; everything on the repository's side of that
boundary is translated from the source line by line.  A returned
`List SnmpPacket` records the response datagrams the code hands to
`sendSNMPResponse` (which writes them to the raw packet's reply endpoint).
-/

namespace Baize

/-! ## ASN.1 / BER outer parse (model of Go `encoding/asn1.Unmarshal` into
`asn1.RawValue` and `int`, as used by `parseSNMPVersion` and
`parseSNMPv1v2cCommunity`). -/

/-- Model of `asn1.RawValue`: class, tag number, constructed bit, content
bytes, and the full encoding (header plus content). -/
structure RawValue where
  cls : Nat
  tag : Nat
  compound : Bool
  bytes : List Nat
  fullBytes : List Nat
  deriving Repr, DecidableEq

/-- Base-128 parse of a high-tag-number form, mirroring Go
`parseBase128Int`: returns the value and the number of bytes consumed, or
`none` on truncation, non-minimal encoding, or overflow past `2^31 - 1`. -/
def parseBase128Aux : List Nat → Nat → Nat → Nat → Option (Nat × Nat)
  | [], _, _, _ => none
  | b :: rest, acc, shifted, consumed =>
    if shifted = 5 then none
    else if acc = 0 ∧ b = 128 then none
    else
      let acc' := acc * 128 + b % 128
      if b < 128 then
        if acc' > 2147483647 then none else some (acc', consumed + 1)
      else parseBase128Aux rest acc' (shifted + 1) (consumed + 1)

def parseBase128 (d : List Nat) : Option (Nat × Nat) :=
  parseBase128Aux d 0 0 0

/-- Long-form length octets, mirroring the loop in Go `parseTagAndLength`:
big-endian accumulation with the `1 << 23` overflow guard. -/
def readLenBytes : Nat → List Nat → Nat → Option (Nat × List Nat)
  | 0, rest, acc => some (acc, rest)
  | _ + 1, [], _ => none
  | n + 1, b :: rest, acc =>
    if acc ≥ 8388608 then none else readLenBytes n rest (acc * 256 + b)

/-- Identifier and length octets of one BER element. -/
structure TagLen where
  cls : Nat
  compound : Bool
  tag : Nat
  len : Nat
  hdrLen : Nat
  deriving Repr, DecidableEq

/-- Model of Go `parseTagAndLength`: short/long tag forms, short/long length
forms, rejecting indefinite lengths and non-minimal encodings. -/
def parseTagLen (d : List Nat) : Option (TagLen × List Nat) :=
  match d with
  | [] => none
  | b :: rest =>
    let cls := b / 64
    let compound := b / 32 % 2 = 1
    let tagShort := b % 32
    let tagParse : Option (Nat × Nat × List Nat) :=
      if tagShort = 31 then
        match parseBase128 rest with
        | some (t, c) => if t < 31 then none else some (t, c, rest.drop c)
        | none => none
      else some (tagShort, 0, rest)
    match tagParse with
    | none => none
    | some (tag, c1, r1) =>
      match r1 with
      | [] => none
      | l :: r2 =>
        if l < 128 then
          some (⟨cls, compound, tag, l, 1 + c1 + 1⟩, r2)
        else
          let numBytes := l % 128
          if numBytes = 0 then none
          else
            match readLenBytes numBytes r2 0 with
            | none => none
            | some (len, r3) =>
              if len < 128 then none
              else some (⟨cls, compound, tag, len, 1 + c1 + 1 + numBytes⟩, r3)

/-- Model of `asn1.Unmarshal(data, &rawValue)`: parses one element of any
class/tag and returns it with the trailing rest. -/
def unmarshalRaw (d : List Nat) : Option (RawValue × List Nat) :=
  match parseTagLen d with
  | none => none
  | some (t, r) =>
    if t.len ≤ r.length then
      some (⟨t.cls, t.tag, t.compound, r.take t.len, d.take (t.hdrLen + t.len)⟩,
            r.drop t.len)
    else none

/-- Go `asn1.checkInteger`: a two's-complement INTEGER body must be non-empty
and minimally encoded. -/
def checkIntegerMinimal (bs : List Nat) : Bool :=
  match bs with
  | [] => false
  | [_] => true
  | b0 :: b1 :: _ => !((b0 = 0 ∧ b1 < 128) ∨ (b0 = 255 ∧ b1 ≥ 128) : Bool)

/-- Two's-complement big-endian integer value of an INTEGER body. -/
def parseIntBytes (bs : List Nat) : Int :=
  let u : Nat := bs.foldl (fun acc b => acc * 256 + b) 0
  match bs with
  | [] => 0
  | b :: _ => if b ≥ 128 then (u : Int) - ((2 ^ (8 * bs.length) : Nat) : Int) else (u : Int)

/-- Model of `asn1.Unmarshal(data, &someInt)`: requires a primitive
universal-class INTEGER, at most 8 content bytes, minimally encoded. -/
def unmarshalInt (d : List Nat) : Option Int :=
  match parseTagLen d with
  | none => none
  | some (t, r) =>
    if t.cls = 0 ∧ t.tag = 2 ∧ t.compound = false ∧ t.len ≤ r.length then
      let bs := r.take t.len
      if bs.length > 8 then none
      else if checkIntegerMinimal bs then some (parseIntBytes bs) else none
    else none

/-! ## Error sentinels and protocol enums (pkg/snmp response engine interface). -/

/-- The distinct error sentinels of `pkg/snmp` (`ErrNilRequest` …), plus
`.communityParse` for the `fmt.Errorf` failures of `parseSNMPv1v2cCommunity`
and `.wrapped` for errors rewrapped by `fmt.Errorf("…: %v", err)` inside
`ProcessRequest`. -/
inductive SnmpErr where
  | nilRequest
  | unsupportedVersion
  | parseVersion
  | illegalVersion
  | decodeSnmpRequest
  | versionMismatch
  | disableVersion
  | v1InformNotSupported
  | v1TrapNotSupported
  | invalidInformRequest
  | emptyCommunity
  | invalidCommunity
  | unsupportedPduType
  | communityParse
  | wrapped (e : SnmpErr)
  deriving Repr, DecidableEq

/-- gosnmp SNMP versions reachable from the sniffer (wire value 0, 1, 3). -/
inductive SnmpVersion where
  | v1
  | v2c
  | v3
  deriving Repr, DecidableEq

/-- gosnmp PDU types used by the engines. -/
inductive PDUType where
  | GetRequest
  | GetNextRequest
  | GetResponse
  | SetRequest
  | Trap
  | GetBulkRequest
  | InformRequest
  | SNMPv2Trap
  | Report
  deriving Repr, DecidableEq

/-- A Go `interface{}` variable-binding value as the normalizer inspects it. -/
inductive GoValue where
  | vNil
  | vUint32 (n : Nat)
  | vUint64 (n : Nat)
  | vUint (n : Nat)
  | vInt (z : Int)
  | vInt64 (z : Int)
  | vBytes (bs : List Nat)
  | vString (s : String)
  deriving Repr, DecidableEq

/-- gosnmp `SnmpPDU`: OID name and value. -/
structure SnmpPDU where
  Name : String
  Value : GoValue
  deriving Repr, DecidableEq

/-- gosnmp `SnmpPacket`, restricted to the fields this repository reads.
`SecurityParameters` models the USM user name when present. -/
structure SnmpPacket where
  Version : SnmpVersion
  PDUType : PDUType
  RequestID : Nat
  Error : Nat := 0
  ErrorIndex : Nat := 0
  Community : List Nat
  MsgFlags : Nat := 0
  SecurityParameters : Option String := none
  Variables : List SnmpPDU
  deriving Repr, DecidableEq

/-- `models.RawPacket`: `Data = none` models a nil byte slice; replies are
addressed to the packet's remote endpoint via its connection handle. -/
structure RawPacket where
  Data : Option (List Nat)
  remoteIP : String := ""
  remotePort : Nat := 0
  deriving Repr, DecidableEq

def RawPacket.dataBytes (r : RawPacket) : List Nat := r.Data.getD []

/-! ## Version sniffer (`ResponseManager.parseSNMPVersion`). -/

/-- Steps 1–4 of `ResponseManager.parseSNMPVersion`: outer SEQUENCE parse,
universal-SEQUENCE check, first-element parse, INTEGER-tag check, and integer
decode; every failure is `ErrParseSNMPVersion`. -/
def parseVersionInt (d : List Nat) : Except SnmpErr Int :=
  match unmarshalRaw d with
  | none => .error .parseVersion
  | some (outer, _) =>
    if outer.tag = 16 ∧ outer.cls = 0 then
      match unmarshalRaw outer.bytes with
      | none => .error .parseVersion
      | some (ver, _) =>
        if ver.tag = 2 then
          match unmarshalInt ver.fullBytes with
          | none => .error .parseVersion
          | some n => .ok n
        else .error .parseVersion
    else .error .parseVersion

/-- `ResponseManager.parseSNMPVersion`: maps version integer 0/1/3 to
v1/v2c/v3 and any other integer to `ErrIligelVersion`. -/
def parseSNMPVersion (d : List Nat) : Except SnmpErr SnmpVersion :=
  match parseVersionInt d with
  | .error e => .error e
  | .ok n =>
    if n = 0 then .ok .v1
    else if n = 1 then .ok .v2c
    else if n = 3 then .ok .v3
    else .error .illegalVersion

/-! ## Community parser (`parseSNMPv1v2cCommunity`). -/

/-- `parseSNMPv1v2cCommunity`: outer SEQUENCE, skip the version field, read
the community OCTET STRING.  The four distinct `fmt.Errorf` failures are
collapsed into `.communityParse` (callers only test non-nilness). -/
def parseSNMPv1v2cCommunity (d : List Nat) : Except SnmpErr (List Nat) :=
  match unmarshalRaw d with
  | none => .error .communityParse
  | some (outer, _) =>
    if outer.tag = 16 ∧ outer.cls = 0 then
      match unmarshalRaw outer.bytes with
      | none => .error .communityParse
      | some (_, rest) =>
        match unmarshalRaw rest with
        | none => .error .communityParse
        | some (community, _) =>
          if community.tag = 4 then .ok community.bytes
          else .error .communityParse
    else .error .communityParse

/-! ## Community security model (`CommunitySecurityModel`). -/

structure CommunitySecurityModel where
  readCommunity : List Nat
  readWriteCommunity : List Nat
  deriving Repr, DecidableEq

def NewCommunitySecurityModel (rc rwc : List Nat) : CommunitySecurityModel :=
  ⟨rc, rwc⟩

/-- `CommunitySecurityModel.Authenticate` (`some err` models a non-nil
error; the nil-packet guard is unreachable here since decoded packets are
total values). -/
def CommunitySecurityModel.Authenticate (m : CommunitySecurityModel)
    (p : SnmpPacket) : Option SnmpErr :=
  if p.Community = [] then some .emptyCommunity
  else
    match p.PDUType with
    | .GetRequest | .GetNextRequest | .GetBulkRequest =>
      if p.Community ≠ m.readCommunity ∧ p.Community ≠ m.readWriteCommunity then
        some .invalidCommunity
      else none
    | .SetRequest =>
      if p.Community ≠ m.readWriteCommunity then some .invalidCommunity else none
    | .InformRequest => none
    | .Trap => if p.Version ≠ .v1 then some .versionMismatch else none
    | .SNMPv2Trap => if p.Version ≠ .v2c then some .versionMismatch else none
    | _ => some .unsupportedPduType

/-- `gosnmp.Version2c.String()`, as a Go byte string: "2c". -/
def v2cVersionString : List Nat := [50, 99]

/-- `CommunitySecurityModel.CheckAccess` — the parameter is named `version`
in the source even though the interface declares it `oid`. -/
def CommunitySecurityModel.CheckAccess (_ : CommunitySecurityModel)
    (version : List Nat) (operation : PDUType) : Bool × Option SnmpErr :=
  if operation = .Trap then (true, none)
  else if operation = .InformRequest ∧ version = v2cVersionString then (true, none)
  else (false, none)

/-! ## v1/v2c response engine (`V1_V2cResponseEngine`).

The engine identity string (`generateEngineID`, time- and randomness-based,
used only for logging) is not modelled.  The gosnmp decoder objects in
`decodeerMap` are kept as their keys: a decoder exists for community `c`
exactly when `c` equals one of the two configured communities. -/

structure V1_V2cResponseEngine where
  enabled : Bool
  version : SnmpVersion
  securityModel : CommunitySecurityModel
  readCommunity : List Nat
  readWriteCommunity : List Nat
  deriving Repr, DecidableEq

/-- `NewV1_V2cResponseEngine`; `none` models the construction-time panic on
an enabled engine with an empty community. -/
def NewV1_V2cResponseEngine (rc rwc : List Nat) (enabled : Bool)
    (v : SnmpVersion) : Option V1_V2cResponseEngine :=
  if enabled ∧ (rc = [] ∨ rwc = []) then none
  else some
    { enabled := enabled, version := v,
      securityModel := NewCommunitySecurityModel rc rwc,
      readCommunity := rc, readWriteCommunity := rwc }

/-- Lookup in `decodeerMap`: true iff a (non-nil) decoder is stored under
this community. -/
def V1_V2cResponseEngine.hasDecoder (e : V1_V2cResponseEngine)
    (c : List Nat) : Bool :=
  c = e.readCommunity ∨ c = e.readWriteCommunity

def V1_V2cResponseEngine.createInformResponse (e : V1_V2cResponseEngine)
    (request : SnmpPacket) : Except SnmpErr SnmpPacket :=
  if e.version = .v1 then .error .invalidInformRequest
  else if e.version = .v2c then
    .ok { RequestID := request.RequestID, Version := e.version,
          Community := request.Community, PDUType := .GetResponse,
          Error := 0, ErrorIndex := 0, Variables := [] }
  else .error .v1InformNotSupported

def V1_V2cResponseEngine.validateAndProcessSecurity (e : V1_V2cResponseEngine)
    (request : SnmpPacket) : Option SnmpErr :=
  e.securityModel.Authenticate request

def V1_V2cResponseEngine.createResponse (e : V1_V2cResponseEngine)
    (request : SnmpPacket) : Except SnmpErr SnmpPacket :=
  if request.Version ≠ .v1 then .error .versionMismatch
  else
    match e.validateAndProcessSecurity request with
    | some err => .error err
    | none =>
      match request.PDUType with
      | .Trap => .error .v1TrapNotSupported
      | .InformRequest => e.createInformResponse request
      | _ => .error .unsupportedPduType

/-- `V1_V2cResponseEngine.shouldRespond`: note that `InformRequest` falls
into the `default` arm of the source's switch. -/
def V1_V2cResponseEngine.shouldRespond (_e : V1_V2cResponseEngine)
    (request : SnmpPacket) : Bool :=
  if request.PDUType = .Trap then false
  else
    match request.PDUType with
    | .GetRequest | .GetNextRequest | .SetRequest => true
    | _ => false

def V1_V2cResponseEngine.canProcessRequest (e : V1_V2cResponseEngine)
    (request : SnmpPacket) : Bool :=
  if ¬ e.enabled then false
  else if request.Version = .v1 then
    match request.PDUType with
    | .Trap => true
    | _ => false
  else if request.Version = .v2c then
    match request.PDUType with
    | .GetRequest | .GetNextRequest | .SetRequest => false
    | .InformRequest | .SNMPv2Trap => true
    | _ => false
  else false

def V1_V2cResponseEngine.Enable (e : V1_V2cResponseEngine) : Bool := e.enabled

/-- `V1_V2cResponseEngine.ProcessRequest`.  `decode` is the gosnmp
`SnmpDecodePacket` oracle for the selected per-community decoder; the second
component lists the responses handed to `sendSNMPResponse`. -/
def V1_V2cResponseEngine.ProcessRequest (e : V1_V2cResponseEngine)
    (decode : List Nat → Except Unit SnmpPacket) (raw : RawPacket) :
    Except SnmpErr SnmpPacket × List SnmpPacket :=
  match parseSNMPv1v2cCommunity raw.dataBytes with
  | .error pCErr => (.error pCErr, [])
  | .ok requestCommunity =>
    if ¬ e.hasDecoder requestCommunity then (.error .invalidCommunity, [])
    else
      match decode raw.dataBytes with
      | .error _ => (.error .decodeSnmpRequest, [])
      | .ok snmpPacket =>
        if ¬ e.canProcessRequest snmpPacket then (.error .unsupportedPduType, [])
        else
          match e.validateAndProcessSecurity snmpPacket with
          | some err => (.error (.wrapped err), [])
          | none =>
            if ¬ e.shouldRespond snmpPacket then (.ok snmpPacket, [])
            else
              match e.createResponse snmpPacket with
              | .error err => (.error (.wrapped err), [])
              | .ok response => (.ok snmpPacket, [response])

/-! ## Response transmission (`sendSNMPResponse`). -/

/-- `sendSNMPResponse`: marshal the response and write it to the raw
packet's reply endpoint.  `marshal` models `SnmpPacket.MarshalMsg` and
`writeToUDP` models `rawPacket.Conn.WriteToUDP(data, rawPacket.RemoteAddr)`;
both are external effects, passed as oracles. -/
def sendSNMPResponse (marshal : SnmpPacket → Except Unit (List Nat))
    (writeToUDP : List Nat → Except Unit Nat)
    (response : SnmpPacket) : Except Unit Unit :=
  match marshal response with
  | .error _ => .error ()
  | .ok data =>
    match writeToUDP data with
    | .error _ => .error ()
    | .ok _ => .ok ()

/-! ## v3 response engine (`V3ResponseEngine`). -/

structure V3ResponseEngine where
  enabled : Bool
  version : SnmpVersion
  deriving Repr, DecidableEq

/-- `models.V3EngineConfig`. -/
structure V3EngineConfig where
  Enabled : Bool
  UserName : String := ""
  MsgFlags : String
  AuthProtocol : String
  PrivProtocol : String
  PrivPassphrase : String := ""
  AuthPassphrase : String := ""
  deriving Repr, DecidableEq

/-- `NewV3ResponseEngine`; `none` models the construction-time panic on an
unknown `msg_flags`, `auth_protocol` or `priv_protocol` enum string. -/
def NewV3ResponseEngine (config : V3EngineConfig) : Option V3ResponseEngine :=
  if (config.MsgFlags = "NoAuthNoPriv" ∨ config.MsgFlags = "AuthNoPriv" ∨
        config.MsgFlags = "AuthPriv") ∧
     (config.AuthProtocol = "MD5" ∨ config.AuthProtocol = "SHA") ∧
     (config.PrivProtocol = "DES" ∨ config.PrivProtocol = "AES" ∨
        config.PrivProtocol = "AES192" ∨ config.PrivProtocol = "AES256") then
    some { enabled := config.Enabled, version := .v3 }
  else none

def V3ResponseEngine.Enable (e : V3ResponseEngine) : Bool := e.enabled

/-- `V3ResponseEngine.ProcessRequest`.  The result of `sendSNMPResponse` is
discarded by the source, so the returned value does not depend on the
marshal/write oracles; the second component records the response handed to
`sendSNMPResponse`. -/
def V3ResponseEngine.ProcessRequest (e : V3ResponseEngine)
    (decode : List Nat → Except Unit SnmpPacket)
    (marshal : SnmpPacket → Except Unit (List Nat))
    (writeToUDP : List Nat → Except Unit Nat)
    (raw : RawPacket) : Except SnmpErr SnmpPacket × List SnmpPacket :=
  match decode raw.dataBytes with
  | .error _ => (.error .decodeSnmpRequest, [])
  | .ok snmpPacket =>
    if snmpPacket.PDUType ≠ .SNMPv2Trap ∧ snmpPacket.PDUType ≠ .InformRequest then
      (.error .unsupportedPduType, [])
    else if snmpPacket.PDUType = .InformRequest then
      let response : SnmpPacket :=
        { RequestID := snmpPacket.RequestID, Version := e.version,
          Community := snmpPacket.Community, PDUType := .GetResponse,
          Error := 0, ErrorIndex := 0, Variables := [] }
      let _ := sendSNMPResponse marshal writeToUDP response
      (.ok snmpPacket, [response])
    else (.ok snmpPacket, [])

/-! ## Engine factory and response manager. -/

structure V1EngineConfig where
  ReadCommunity : List Nat
  ReadWriteCommunity : List Nat
  Enabled : Bool
  deriving Repr, DecidableEq

structure V2cEngineConfig where
  ReadCommunity : List Nat
  ReadWriteCommunity : List Nat
  Enabled : Bool
  deriving Repr, DecidableEq

structure ResponseEngineFactoryConfig where
  V1Config : Option V1EngineConfig
  V2cConfig : Option V2cEngineConfig
  V3Config : Option V3EngineConfig
  deriving Repr, DecidableEq

/-- The dynamic engine variants stored in the factory's map. -/
inductive EngineE where
  | v1v2c (e : V1_V2cResponseEngine)
  | v3 (e : V3ResponseEngine)
  deriving Repr, DecidableEq

def EngineE.Enable : EngineE → Bool
  | .v1v2c e => e.Enable
  | .v3 e => e.Enable

/-- `ResponseEngineFactory`: at most one engine per version. -/
structure ResponseEngineFactory where
  engines : SnmpVersion → Option EngineE

/-- The v1 map entry of `NewResponseEngineFactory`: registered whenever
`V1Config` is present (enabled or not); outer `none` models a constructor
panic. -/
def mkV1Entry : Option V1EngineConfig → Option (Option EngineE)
  | none => some none
  | some c =>
    match NewV1_V2cResponseEngine c.ReadCommunity c.ReadWriteCommunity
        c.Enabled .v1 with
    | none => none
    | some e => some (some (.v1v2c e))

/-- The v2c map entry: registered only when `V2cConfig` is present AND
enabled. -/
def mkV2cEntry : Option V2cEngineConfig → Option (Option EngineE)
  | none => some none
  | some c =>
    if ¬ c.Enabled then some none
    else
      match NewV1_V2cResponseEngine c.ReadCommunity c.ReadWriteCommunity
          c.Enabled .v2c with
      | none => none
      | some e => some (some (.v1v2c e))

/-- The v3 map entry: registered only when `V3Config` is present AND
enabled. -/
def mkV3Entry : Option V3EngineConfig → Option (Option EngineE)
  | none => some none
  | some c =>
    if ¬ c.Enabled then some none
    else
      match NewV3ResponseEngine c with
      | none => none
      | some e => some (some (.v3 e))

/-- `NewResponseEngineFactory`; `none` models a construction-time panic of
one of the engine constructors. -/
def NewResponseEngineFactory (config : ResponseEngineFactoryConfig) :
    Option ResponseEngineFactory := do
  let e1 ← mkV1Entry config.V1Config
  let e2 ← mkV2cEntry config.V2cConfig
  let e3 ← mkV3Entry config.V3Config
  pure { engines := fun v =>
    match v with
    | .v1 => e1
    | .v2c => e2
    | .v3 => e3 }

/-- `ResponseEngineFactory.createEngine`. -/
def ResponseEngineFactory.createEngine (f : ResponseEngineFactory)
    (version : SnmpVersion) : Except SnmpErr EngineE :=
  match f.engines version with
  | none => .error .unsupportedVersion
  | some e => .ok e

/-- Dispatch of `engine.ProcessRequest(rawPacket)` over the engine variant,
threading the external-codec oracles. -/
def EngineE.ProcessRequest (e : EngineE)
    (decode : List Nat → Except Unit SnmpPacket)
    (marshal : SnmpPacket → Except Unit (List Nat))
    (writeToUDP : List Nat → Except Unit Nat)
    (raw : RawPacket) : Except SnmpErr SnmpPacket × List SnmpPacket :=
  match e with
  | .v1v2c e => e.ProcessRequest decode raw
  | .v3 e => e.ProcessRequest decode marshal writeToUDP raw

/-- `ResponseManager.ResponseRequest`: nil check, version sniff, engine
lookup (`unsupported-version` when absent), enable check
(`disabled-version`), then delegation.  The source's redundant membership
check on the sniffed version is vacuous here because `SnmpVersion` has
exactly the three sniffable values. -/
def ResponseManager.ResponseRequest (f : ResponseEngineFactory)
    (decode : List Nat → Except Unit SnmpPacket)
    (marshal : SnmpPacket → Except Unit (List Nat))
    (writeToUDP : List Nat → Except Unit Nat)
    (raw : RawPacket) : Except SnmpErr SnmpPacket × List SnmpPacket :=
  match raw.Data with
  | none => (.error .nilRequest, [])
  | some d =>
    match parseSNMPVersion d with
    | .error e => (.error e, [])
    | .ok packetVersion =>
      match f.createEngine packetVersion with
      | .error e => (.error e, [])
      | .ok engine =>
        if ¬ engine.Enable then (.error .disableVersion, [])
        else engine.ProcessRequest decode marshal writeToUDP raw

/-! ## Normalizer (`TrapHandler.convertToTrapMessage` and helpers). -/

/-- `models.TrapMessage`, restricted to the fields the handler writes
(timestamps and downstream-enrichment fields stay at their zero values). -/
structure TrapMessage where
  SourceIP : String
  SourcePort : Nat
  Version : SnmpVersion
  Community : List Nat
  SecurityModel : String := ""
  UserName : String := ""
  PDUType : PDUType
  RequestID : Nat
  V1EnterpriseOID : String := ""
  V1GenericTrap : Int := 0
  V1SpecificTrap : Int := 0
  V2cV3Timestamp : Nat := 0
  VariableMap : List (String × String) := []
  NeedsResponse : Bool := false
  AlertType : String := ""
  deriving Repr, DecidableEq

/-- `fmt.Sprintf("%v", value)` on the binding values the handler sees. -/
def fmtValue : GoValue → String
  | .vNil => "<nil>"
  | .vUint32 n => toString n
  | .vUint64 n => toString n
  | .vUint n => toString n
  | .vInt z => toString z
  | .vInt64 z => toString z
  | .vBytes bs => "[" ++ String.intercalate " " (bs.map toString) ++ "]"
  | .vString s => s

/-- `gosnmp.ToBigInt(v).String()` on a byte slice: big-endian unsigned
decimal. -/
def bytesToBigIntString (bs : List Nat) : String :=
  toString (bs.foldl (fun a b => a * 256 + b) 0)

/-- Go map insertion (last writer wins). -/
def mapInsert (m : List (String × String)) (k v : String) :
    List (String × String) :=
  if m.any (fun kv => kv.1 = k) then
    m.map (fun kv => if kv.1 = k then (k, v) else kv)
  else m ++ [(k, v)]

/-- `TrapHandler.extractV1Fields`: requires at least 4 variable bindings;
otherwise defaults generic/specific to 0 and returns (a log warning aside),
leaving the enterprise OID untouched. -/
def extractV1Fields (t : TrapMessage) (p : SnmpPacket) : TrapMessage :=
  match p.Variables with
  | v0 :: _ :: v2 :: v3 :: _ =>
    let t1 :=
      match v0.Value with
      | .vNil => t
      | .vBytes bs => { t with V1EnterpriseOID := bytesToBigIntString bs }
      | .vString s => { t with V1EnterpriseOID := s }
      | .vInt z => { t with V1EnterpriseOID := fmtValue (.vInt z) }
      | .vInt64 z => { t with V1EnterpriseOID := fmtValue (.vInt64 z) }
      | .vUint n => { t with V1EnterpriseOID := fmtValue (.vUint n) }
      | .vUint64 n => { t with V1EnterpriseOID := fmtValue (.vUint64 n) }
      | v => { t with V1EnterpriseOID := fmtValue v }
    let t2 :=
      match v2.Value with
      | .vNil => { t1 with V1GenericTrap := 0 }
      | .vInt z => { t1 with V1GenericTrap := z }
      | .vInt64 z => { t1 with V1GenericTrap := z }
      | .vUint32 n => { t1 with V1GenericTrap := (n : Int) }
      | _ => { t1 with V1GenericTrap := 0 }
    match v3.Value with
    | .vNil => { t2 with V1SpecificTrap := 0 }
    | .vInt z => { t2 with V1SpecificTrap := z }
    | .vInt64 z => { t2 with V1SpecificTrap := z }
    | .vUint32 n => { t2 with V1SpecificTrap := (n : Int) }
    | _ => { t2 with V1SpecificTrap := 0 }
  | _ => { t with V1GenericTrap := 0, V1SpecificTrap := 0 }

/-- The uint32 sysUpTime coercion of `TrapHandler.extractV2cV3Fields`:
uint32 passes through; uint64/int64 above `math.MaxUint32` saturate;
negative int/int64 clamp to 0; a non-negative int is converted by Go's
truncating `uint32(v)`; any other type (and nil) yields 0. -/
def sysUpTimeOf : GoValue → Nat
  | .vUint32 n => n
  | .vUint64 n => if n > 4294967295 then 4294967295 else n
  | .vInt z => if z < 0 then 0 else z.toNat % 4294967296
  | .vInt64 z =>
    if z < 0 then 0
    else if z > 4294967295 then 4294967295
    else z.toNat
  | .vNil => 0
  | _ => 0

/-- `TrapHandler.extractV2cV3Fields`: with no bindings the message keeps its
zero timestamp; otherwise binding [0] is coerced by `sysUpTimeOf`. -/
def extractV2cV3Fields (t : TrapMessage) (p : SnmpPacket) : TrapMessage :=
  match p.Variables with
  | [] => t
  | v0 :: _ => { t with V2cV3Timestamp := sysUpTimeOf v0.Value }

/-- `TrapHandler.extractV3SecurityInfo`: security model from the low two
bits of the message flags, user name from the USM parameters if present. -/
def extractV3SecurityInfo (t : TrapMessage) (p : SnmpPacket) : TrapMessage :=
  let fl := p.MsgFlags % 4
  let sm :=
    if fl = 0 then "noAuthNoPriv"
    else if fl = 1 then "authNoPriv"
    else if fl = 3 then "authPriv"
    else "Unknown(" ++ toString fl ++ ")"
  let t1 := { t with SecurityModel := sm }
  match p.SecurityParameters with
  | some userName => { t1 with UserName := userName }
  | none => t1

/-- `TrapHandler.convertToTrapMessage`. -/
def convertToTrapMessage (snmpPacket : SnmpPacket) (rawPacket : RawPacket) :
    TrapMessage :=
  let trap : TrapMessage :=
    { SourceIP := rawPacket.remoteIP, SourcePort := rawPacket.remotePort,
      Version := snmpPacket.Version, Community := snmpPacket.Community,
      PDUType := snmpPacket.PDUType, RequestID := snmpPacket.RequestID,
      NeedsResponse := snmpPacket.PDUType = .InformRequest,
      VariableMap := [] }
  let trap1 :=
    match snmpPacket.Version with
    | .v1 => extractV1Fields trap snmpPacket
    | .v2c => extractV2cV3Fields trap snmpPacket
    | .v3 => extractV2cV3Fields trap snmpPacket
  let vm := snmpPacket.Variables.foldl
    (fun m pdu => mapInsert m pdu.Name (fmtValue pdu.Value)) trap1.VariableMap
  let trap2 := { trap1 with VariableMap := vm }
  if snmpPacket.Version = .v3 then extractV3SecurityInfo trap2 snmpPacket
  else trap2

/-! ## Trap handler (`TrapHandler.processTrap`). -/

/-- What one `processTrap` call did: whether the response manager was
invoked, which response datagrams were transmitted, and which TrapMessages
were enqueued onto the egress queue. -/
structure ProcessOutcome where
  respondInvoked : Bool
  responsesSent : List SnmpPacket
  emitted : List TrapMessage
  deriving Repr, DecidableEq

/-- `TrapHandler.processTrap` for one dequeued raw packet.  `lockRes` is the
outcome of `locker.AcquireLock` (`.error` transport failure, `.ok false`
already held, `.ok true` acquired); `respond` is
`responseMgr.ResponseRequest` partially applied; `egressReady` tells whether
the timed (100 ms) egress send succeeds before timing out. -/
def TrapHandler.processTrap (lockRes : Except Unit Bool)
    (respond : RawPacket → Except SnmpErr SnmpPacket × List SnmpPacket)
    (egressReady : Bool) (raw : RawPacket) : ProcessOutcome :=
  match lockRes with
  | .error _ => ⟨false, [], []⟩
  | .ok false => ⟨false, [], []⟩
  | .ok true =>
    match respond raw with
    | (.error _, sent) => ⟨true, sent, []⟩
    | (.ok snmpPacket, sent) =>
      let trapMessage := convertToTrapMessage snmpPacket raw
      ⟨true, sent, if egressReady then [trapMessage] else []⟩

/-! ## Server coordinator (`SNMPServer.Start` / `SNMPServer.Stop`). -/

/-- `config.TrapHandlerConfig`. -/
structure TrapHandlerConfig where
  WorkerCount : Int
  QueueSize : Int := 0
  LockTimeout : Int
  ProcessingTimeout : Int := 0
  deriving Repr, DecidableEq

/-- `time.Second` in Go `time.Duration` units (nanoseconds). -/
def timeSecond : Int := 1000000000

/-- The handler state `SNMPServer.Start` constructs; `LockTimeout` is a Go
`time.Duration` in nanoseconds. -/
structure TrapHandler where
  LockTimeout : Int
  deriving Repr, DecidableEq

def newTrapHandler (lt : Int) : TrapHandler := { LockTimeout := lt }

/-- The duration `SNMPServer.Start` computes for the handler:
`time.Duration(s.config.TrapHandlerConf.LockTimeout)`, i.e. the configured
integer read as nanoseconds. -/
def SNMPServer.startLockTimeout (conf : TrapHandlerConfig) : Int :=
  conf.LockTimeout

/-- The TTL `TrapHandler.processTrap` passes to `locker.AcquireLock`:
`h.LockTimeout`, unchanged. -/
def TrapHandler.acquireTTL (h : TrapHandler) : Int := h.LockTimeout

/-- The drain loop of `SNMPServer.Stop`, unrolled: `midLen j` is the length
of the ingress queue observed at the j-th poll (polls are 100 ms apart), and
`stopDrainExitsWithin midLen k` says the loop has exited by poll `k`.  The
source loop (`for { if len(s.midChannel) == 0 { break }; sleep 100ms }`)
breaks exactly when some poll observes an empty queue. -/
def SNMPServer.stopDrainExitsWithin (midLen : Nat → Nat) (k : Nat) : Bool :=
  (List.range (k + 1)).any (fun j => midLen j = 0)

/-! ## Theorems. -/

/-- C9: for every version string and PDU type, `CheckAccess` returns
`(true, nil)` exactly when the operation is Trap, or when the operation is
InformRequest and the version argument equals the v2c version string; in all
other cases it returns `(false, nil)`, and it never returns a non-nil
error. -/
theorem c9_checkaccess_policy (m : CommunitySecurityModel)
    (version : List Nat) (operation : PDUType) :
    (m.CheckAccess version operation).2 = none ∧
    ((m.CheckAccess version operation).1 = true ↔
      (operation = .Trap ∨
        (operation = .InformRequest ∧ version = v2cVersionString))) := by
  by_cases hv : version = v2cVersionString <;>
    cases operation <;> simp [CommunitySecurityModel.CheckAccess, hv]

/-- C5: the version sniffer fails with `parse-version` on every structural
failure (outer element unparseable or not a universal-class SEQUENCE, first
element unparseable, not tagged INTEGER, or with an undecodable integer
body); it fails with `illegal-version` when the decoded version integer is
outside {0, 1, 3}; and otherwise maps 0 to v1, 1 to v2c and 3 to v3. -/
theorem c5_version_sniffer (d : List Nat) :
    (unmarshalRaw d = none → parseSNMPVersion d = .error .parseVersion) ∧
    (∀ outer rest, unmarshalRaw d = some (outer, rest) →
      ¬ (outer.tag = 16 ∧ outer.cls = 0) →
      parseSNMPVersion d = .error .parseVersion) ∧
    (∀ outer rest, unmarshalRaw d = some (outer, rest) →
      outer.tag = 16 → outer.cls = 0 → unmarshalRaw outer.bytes = none →
      parseSNMPVersion d = .error .parseVersion) ∧
    (∀ outer rest ver vrest, unmarshalRaw d = some (outer, rest) →
      outer.tag = 16 → outer.cls = 0 →
      unmarshalRaw outer.bytes = some (ver, vrest) → ver.tag ≠ 2 →
      parseSNMPVersion d = .error .parseVersion) ∧
    (∀ outer rest ver vrest, unmarshalRaw d = some (outer, rest) →
      outer.tag = 16 → outer.cls = 0 →
      unmarshalRaw outer.bytes = some (ver, vrest) → ver.tag = 2 →
      unmarshalInt ver.fullBytes = none →
      parseSNMPVersion d = .error .parseVersion) ∧
    (∀ n : Int, parseVersionInt d = .ok n →
      (n = 0 → parseSNMPVersion d = .ok .v1) ∧
      (n = 1 → parseSNMPVersion d = .ok .v2c) ∧
      (n = 3 → parseSNMPVersion d = .ok .v3) ∧
      (n ≠ 0 → n ≠ 1 → n ≠ 3 →
        parseSNMPVersion d = .error .illegalVersion)) := by
  refine ⟨?_, ?_, ?_, ?_, ?_, ?_⟩
  · intro h
    simp [parseSNMPVersion, parseVersionInt, h]
  · intro outer rest h hno
    simp [parseSNMPVersion, parseVersionInt, h, if_neg hno]
  · intro outer rest h htag hcls hin
    simp [parseSNMPVersion, parseVersionInt, h, htag, hcls, hin]
  · intro outer rest ver vrest h htag hcls hver hvt
    simp [parseSNMPVersion, parseVersionInt, h, htag, hcls, hver, hvt]
  · intro outer rest ver vrest h htag hcls hver hvt hint
    simp [parseSNMPVersion, parseVersionInt, h, htag, hcls, hver, hvt, hint]
  · intro n hn
    refine ⟨?_, ?_, ?_, ?_⟩ <;> intro h0 <;>
      simp [parseSNMPVersion, hn, h0]
    intro h1 h3
    simp [parseSNMPVersion, hn, h0, h1, h3]

/-- Witness for C5: the reserved version integer 2 yields
`illegal-version` on a concrete well-formed outer sequence. -/
theorem c5_version_sniffer_witness :
    parseSNMPVersion [48, 3, 2, 1, 2] = .error .illegalVersion :=
  ((c5_version_sniffer [48, 3, 2, 1, 2]).2.2.2.2.2 2 (by rfl)).2.2.2
    (by decide) (by decide) (by decide)

/-- The later stages of `convertToTrapMessage` (variable-map population and
v3 security extraction) do not touch the sysUpTime field, so it equals the
coercion of binding [0] for v2c/v3 packets. -/
theorem convert_v2cv3_timestamp (p : SnmpPacket) (raw : RawPacket)
    (hv : p.Version = .v2c ∨ p.Version = .v3)
    (v0 : SnmpPDU) (vs : List SnmpPDU) (hvars : p.Variables = v0 :: vs) :
    (convertToTrapMessage p raw).V2cV3Timestamp = sysUpTimeOf v0.Value := by
  rcases hv with hv | hv <;>
    cases hsp : p.SecurityParameters <;>
      simp [convertToTrapMessage, hv, hsp, extractV2cV3Fields,
        extractV3SecurityInfo, hvars]

/-- C6: for a decoded v2c or v3 packet with at least one variable binding,
the normalized sysUpTime equals the value for a uint32; saturates to
`UINT32_MAX` for a uint64 or int64 above `UINT32_MAX`; clamps to 0 for a
negative int or int64; and is 0 for unrecognised value types (byte slice,
string, plain uint) and for a nil value. -/
theorem c6_sysuptime_normalization (p : SnmpPacket) (raw : RawPacket)
    (hv : p.Version = .v2c ∨ p.Version = .v3)
    (v0 : SnmpPDU) (vs : List SnmpPDU) (hvars : p.Variables = v0 :: vs) :
    (∀ n, v0.Value = .vUint32 n →
      (convertToTrapMessage p raw).V2cV3Timestamp = n) ∧
    (∀ n, v0.Value = .vUint64 n → 4294967295 < n →
      (convertToTrapMessage p raw).V2cV3Timestamp = 4294967295) ∧
    (∀ z : Int, v0.Value = .vInt64 z → 4294967295 < z →
      (convertToTrapMessage p raw).V2cV3Timestamp = 4294967295) ∧
    (∀ z : Int, v0.Value = .vInt z → z < 0 →
      (convertToTrapMessage p raw).V2cV3Timestamp = 0) ∧
    (∀ z : Int, v0.Value = .vInt64 z → z < 0 →
      (convertToTrapMessage p raw).V2cV3Timestamp = 0) ∧
    (∀ bs, v0.Value = .vBytes bs →
      (convertToTrapMessage p raw).V2cV3Timestamp = 0) ∧
    (∀ s, v0.Value = .vString s →
      (convertToTrapMessage p raw).V2cV3Timestamp = 0) ∧
    (∀ n, v0.Value = .vUint n →
      (convertToTrapMessage p raw).V2cV3Timestamp = 0) ∧
    (v0.Value = .vNil → (convertToTrapMessage p raw).V2cV3Timestamp = 0) := by
  have hts := convert_v2cv3_timestamp p raw hv v0 vs hvars
  refine ⟨?_, ?_, ?_, ?_, ?_, ?_, ?_, ?_, ?_⟩
  · intro n h; rw [hts, h]; simp [sysUpTimeOf]
  · intro n h hlt; rw [hts, h]; simp [sysUpTimeOf, hlt]
  · intro z h hlt; rw [hts, h]; simp only [sysUpTimeOf, if_neg (by omega : ¬ z < 0), if_pos hlt]
  · intro z h hlt; rw [hts, h]; simp [sysUpTimeOf, hlt]
  · intro z h hlt; rw [hts, h]; simp [sysUpTimeOf, hlt]
  · intro bs h; rw [hts, h]; simp [sysUpTimeOf]
  · intro s h; rw [hts, h]; simp [sysUpTimeOf]
  · intro n h; rw [hts, h]; simp [sysUpTimeOf]
  · intro h; rw [hts, h]; simp [sysUpTimeOf]

/-- Witness for C6: a v3 packet whose first binding is int64 −5 normalizes
to sysUpTime 0. -/
theorem c6_sysuptime_normalization_witness :
    (convertToTrapMessage
      { Version := .v3, PDUType := .SNMPv2Trap, RequestID := 7,
        Community := [], Variables := [⟨"1.3.6.1.2.1.1.3.0", .vInt64 (-5)⟩] }
      { Data := some [] }).V2cV3Timestamp = 0 :=
  (c6_sysuptime_normalization _ _ (Or.inr rfl) _ _ rfl).2.2.2.2.1 (-5) rfl
    (by decide)

/-- C7: a decoded v1 packet with fewer than 4 variable bindings normalizes
with generic-trap and specific-trap both 0, and the enterprise-OID field
left at its empty zero value; normalization is a total function, so it
completes without failure. -/
theorem c7_v1_insufficient_varbinds (p : SnmpPacket) (raw : RawPacket)
    (hv : p.Version = .v1) (hlen : p.Variables.length < 4) :
    (convertToTrapMessage p raw).V1GenericTrap = 0 ∧
    (convertToTrapMessage p raw).V1SpecificTrap = 0 ∧
    (convertToTrapMessage p raw).V1EnterpriseOID = "" := by
  have hfield :
      extractV1Fields
        { SourceIP := raw.remoteIP, SourcePort := raw.remotePort,
          Version := p.Version, Community := p.Community,
          PDUType := p.PDUType, RequestID := p.RequestID,
          NeedsResponse := p.PDUType = .InformRequest, VariableMap := [] } p =
      { SourceIP := raw.remoteIP, SourcePort := raw.remotePort,
        Version := p.Version, Community := p.Community,
        PDUType := p.PDUType, RequestID := p.RequestID,
        NeedsResponse := p.PDUType = .InformRequest, VariableMap := [],
        V1GenericTrap := 0, V1SpecificTrap := 0 } := by
    rcases hvs : p.Variables with _ | ⟨a, _ | ⟨b, _ | ⟨c, _ | ⟨e, tl⟩⟩⟩⟩
    · simp [extractV1Fields, hvs]
    · simp [extractV1Fields, hvs]
    · simp [extractV1Fields, hvs]
    · simp [extractV1Fields, hvs]
    · exfalso; rw [hvs] at hlen; simp at hlen; omega
  rw [hv] at hfield
  simp [convertToTrapMessage, hv, hfield]

/-- Witness for C7: a v1 Trap with a single binding normalizes with both
trap fields 0 and an empty enterprise OID. -/
theorem c7_v1_insufficient_varbinds_witness :
    (convertToTrapMessage
      { Version := .v1, PDUType := .Trap, RequestID := 1,
        Community := [112], Variables := [⟨"1.3", .vUint32 9⟩] }
      { Data := some [] }).V1GenericTrap = 0 ∧
    (convertToTrapMessage
      { Version := .v1, PDUType := .Trap, RequestID := 1,
        Community := [112], Variables := [⟨"1.3", .vUint32 9⟩] }
      { Data := some [] }).V1SpecificTrap = 0 ∧
    (convertToTrapMessage
      { Version := .v1, PDUType := .Trap, RequestID := 1,
        Community := [112], Variables := [⟨"1.3", .vUint32 9⟩] }
      { Data := some [] }).V1EnterpriseOID = "" :=
  c7_v1_insufficient_varbinds _ _ rfl (by decide)

/-- C4: when lock acquisition fails with a transport error or returns false
(already held), the worker returns without invoking the response manager and
without enqueuing any TrapMessage; and in every case at most one TrapMessage
is emitted per lock acquisition. -/
theorem c4_lock_gate (raw : RawPacket) (lockRes : Except Unit Bool)
    (respond : RawPacket → Except SnmpErr SnmpPacket × List SnmpPacket)
    (egressReady : Bool) :
    ((lockRes = .error () ∨ lockRes = .ok false) →
      (TrapHandler.processTrap lockRes respond egressReady raw).respondInvoked
          = false ∧
      (TrapHandler.processTrap lockRes respond egressReady raw).emitted = []) ∧
    (TrapHandler.processTrap lockRes respond egressReady raw).emitted.length
        ≤ 1 := by
  constructor
  · rintro (h | h) <;> rw [h] <;> simp [TrapHandler.processTrap]
  · rcases lockRes with u | b
    · simp [TrapHandler.processTrap]
    · cases b
      · simp [TrapHandler.processTrap]
      · rcases hr : respond raw with ⟨res, sent⟩
        cases res <;> cases egressReady <;>
          simp [TrapHandler.processTrap, hr]

/-- Witness for C4: a held lock (`acquired = false`) leads to no response
manager call and no emission. -/
theorem c4_lock_gate_witness :
    (TrapHandler.processTrap (.ok false)
        (fun _ => (.error .nilRequest, [])) true
        { Data := some [] }).respondInvoked = false ∧
    (TrapHandler.processTrap (.ok false)
        (fun _ => (.error .nilRequest, [])) true
        { Data := some [] }).emitted = [] :=
  (c4_lock_gate { Data := some [] } (.ok false)
    (fun _ => (.error .nilRequest, [])) true).1 (Or.inr rfl)

/-- C10: for a v3 InformRequest that decodes successfully, `ProcessRequest`
returns the decoded packet with no error and hands the GetResponse reply to
`sendSNMPResponse`, and the returned result is identical for any marshal and
UDP-write oracles — a response transmission failure is silently
discarded. -/
theorem c10_v3_inform_send_failure_ignored (e : V3ResponseEngine)
    (decode : List Nat → Except Unit SnmpPacket)
    (marshalA marshalB : SnmpPacket → Except Unit (List Nat))
    (writeA writeB : List Nat → Except Unit Nat)
    (raw : RawPacket) (p : SnmpPacket)
    (hdec : decode raw.dataBytes = .ok p)
    (hpdu : p.PDUType = .InformRequest) :
    e.ProcessRequest decode marshalA writeA raw =
      (.ok p,
        [{ RequestID := p.RequestID, Version := e.version,
           Community := p.Community, PDUType := .GetResponse,
           Error := 0, ErrorIndex := 0, Variables := [] }]) ∧
    e.ProcessRequest decode marshalA writeA raw =
      e.ProcessRequest decode marshalB writeB raw := by
  constructor <;> simp [V3ResponseEngine.ProcessRequest, hdec, hpdu]

/-- A concrete v3 InformRequest used as the C10 witness input. -/
def c10Packet : SnmpPacket :=
  { Version := .v3, PDUType := .InformRequest, RequestID := 42,
    Community := [], Variables := [] }

/-- The GetResponse the v3 engine constructs for `c10Packet`. -/
def c10Response : SnmpPacket :=
  { RequestID := 42, Version := .v3, Community := [],
    PDUType := .GetResponse, Error := 0, ErrorIndex := 0, Variables := [] }

/-- Witness for C10: concrete v3 engine and Inform packet, with a marshal
oracle that fails; the result still carries the decoded packet. -/
theorem c10_v3_inform_send_failure_ignored_witness :
    V3ResponseEngine.ProcessRequest ⟨true, .v3⟩ (fun _ => .ok c10Packet)
      (fun _ => .error ()) (fun _ => .ok 0) { Data := some [] } =
    (.ok c10Packet, [c10Response]) :=
  (c10_v3_inform_send_failure_ignored ⟨true, .v3⟩ (fun _ => .ok c10Packet)
    (fun _ => .error ()) (fun _ => .ok [])
    (fun _ => .ok 0) (fun _ => .ok 0)
    { Data := some [] } c10Packet rfl rfl).1

/-- The community "public" as a Go byte string. -/
def pubBytes : List Nat := [112, 117, 98, 108, 105, 99]

/-- The community "private" as a Go byte string. -/
def privBytes : List Nat := [112, 114, 105, 118, 97, 116, 101]

/-- A well-formed v2c outer message: SEQUENCE { INTEGER 1, OCTET STRING
"public", … }. -/
def c1Bytes : List Nat := [48, 11, 2, 1, 1, 4, 6] ++ pubBytes

/-- The enabled v2c engine with communities public/private. -/
def c1Engine : V1_V2cResponseEngine :=
  { enabled := true, version := .v2c,
    securityModel := ⟨pubBytes, privBytes⟩,
    readCommunity := pubBytes, readWriteCommunity := privBytes }

/-- The decoded v2c InformRequest with request id 0xDEADBEEF. -/
def c1Packet : SnmpPacket :=
  { Version := .v2c, PDUType := .InformRequest, RequestID := 3735928559,
    Community := pubBytes, Variables := [] }

/-- C1 (failing-input evaluation): a valid v2c InformRequest — recognised
community, successful decode, accepted PDU type, passing authentication —
is returned with no error, but the engine hands **no** response datagram to
`sendSNMPResponse`: `shouldRespond` answers false for InformRequest, so the
GetResponse round-trip the claim requires never happens. -/
theorem c1_v2c_inform_sends_no_response :
    NewV1_V2cResponseEngine pubBytes privBytes true .v2c = some c1Engine ∧
    parseSNMPv1v2cCommunity c1Bytes = .ok pubBytes ∧
    c1Engine.canProcessRequest c1Packet = true ∧
    c1Engine.ProcessRequest (fun _ => .ok c1Packet)
        { Data := some c1Bytes, remoteIP := "192.168.1.100",
          remotePort := 162 } =
      (.ok c1Packet, []) := by
  refine ⟨by rfl, by rfl, by rfl, by rfl⟩

/-- C3 (failing-input evaluation): with `lock_timeout` configured as 30,
`SNMPServer.Start` computes `time.Duration(30)` — 30 nanoseconds — and
`processTrap` passes exactly that as the lock TTL, not the 30 seconds
(30 × 10⁹ ns) the configuration means. -/
theorem c3_lock_ttl_nanoseconds_not_seconds :
    (newTrapHandler (SNMPServer.startLockTimeout
        { WorkerCount := 2, LockTimeout := 30 })).acquireTTL = 30 ∧
    30 * timeSecond = 30000000000 ∧
    (newTrapHandler (SNMPServer.startLockTimeout
        { WorkerCount := 2, LockTimeout := 30 })).acquireTTL ≠
      30 * timeSecond := by
  refine ⟨rfl, rfl, by decide⟩

/-- C8 counterexample: on a run in which every 100 ms poll observes a
non-empty ingress queue, the drain loop of `SNMPServer.Stop` never exits —
there is no grace period, so stop does not terminate when the queue never
becomes empty. -/
theorem c8_stop_drain_never_exits :
    ¬ ∃ k, SNMPServer.stopDrainExitsWithin (fun _ => 1) k = true := by
  rintro ⟨k, hk⟩
  simp [SNMPServer.stopDrainExitsWithin] at hk

/-- C8 (amended): the drain loop of `SNMPServer.Stop` polls the ingress
queue every ≈100 ms with no grace bound: it has exited by poll `k` exactly
when some poll up to `k` observed an empty queue, it exits at any poll that
observes the queue empty, and it is still spinning after `k` polls whenever
none of them observed an empty queue — only then is the handler stopped. -/
theorem c8_stop_drain_unbounded (midLen : Nat → Nat) :
    ((∃ k, SNMPServer.stopDrainExitsWithin midLen k = true) ↔
      (∃ k, midLen k = 0)) ∧
    (∀ k, midLen k = 0 →
      SNMPServer.stopDrainExitsWithin midLen k = true) ∧
    (∀ k, (∀ j, j ≤ k → midLen j ≠ 0) →
      SNMPServer.stopDrainExitsWithin midLen k = false) := by
  refine ⟨⟨?_, ?_⟩, ?_, ?_⟩
  · rintro ⟨k, hk⟩
    simp only [SNMPServer.stopDrainExitsWithin, List.any_eq_true,
      List.mem_range, decide_eq_true_eq] at hk
    obtain ⟨j, _, hj⟩ := hk
    exact ⟨j, hj⟩
  · rintro ⟨k, hk⟩
    refine ⟨k, ?_⟩
    simp only [SNMPServer.stopDrainExitsWithin, List.any_eq_true,
      List.mem_range, decide_eq_true_eq]
    exact ⟨k, Nat.lt_succ_self k, hk⟩
  · intro k hk
    simp only [SNMPServer.stopDrainExitsWithin, List.any_eq_true,
      List.mem_range, decide_eq_true_eq]
    exact ⟨k, Nat.lt_succ_self k, hk⟩
  · intro k hk
    simp only [SNMPServer.stopDrainExitsWithin, List.any_eq_false,
      List.mem_range, decide_eq_true_eq]
    intro j hj
    exact hk j (Nat.lt_succ_iff.mp hj)

/-- Witness for C8 (amended): a queue that drains at the third poll lets
the loop exit at that poll. -/
theorem c8_stop_drain_unbounded_witness :
    SNMPServer.stopDrainExitsWithin (fun j => if j < 2 then 1 else 0) 2
      = true :=
  (c8_stop_drain_unbounded (fun j => if j < 2 then 1 else 0)).2.1 2
    (by decide)

/-- The disabled v2c engine config of the C2 counterexample. -/
def c2V2cConf : V2cEngineConfig :=
  { ReadCommunity := pubBytes, ReadWriteCommunity := privBytes,
    Enabled := false }

/-- A factory config whose only engine entry is a disabled v2c engine. -/
def c2cfg : ResponseEngineFactoryConfig :=
  { V1Config := none, V2cConfig := some c2V2cConf, V3Config := none }

/-- The factory built from `c2cfg` (construction succeeds; see the
counterexample's first conjunct). -/
def c2factory : ResponseEngineFactory :=
  (NewResponseEngineFactory c2cfg).getD { engines := fun _ => none }

/-- C2 counterexample: with a configured but disabled v2c engine, a
datagram sniffed as v2c fails with `unsupported-version` — the factory
never registers a disabled v2c engine — not with `disabled-version` as the
claim states. -/
theorem c2_disabled_v2c_is_unsupported :
    (NewResponseEngineFactory c2cfg).isSome = true ∧
    parseSNMPVersion [48, 3, 2, 1, 1] = .ok .v2c ∧
    c2factory.engines .v2c = none ∧
    ResponseManager.ResponseRequest c2factory (fun _ => .error ())
        (fun _ => .error ()) (fun _ => .error ())
        { Data := some [48, 3, 2, 1, 1] } =
      (.error .unsupportedVersion, []) ∧
    SnmpErr.unsupportedVersion ≠ SnmpErr.disableVersion := by
  refine ⟨rfl, rfl, rfl, rfl, by decide⟩

/-- Structure of a successfully constructed factory: each version's map
entry comes from the corresponding `mk*Entry`. -/
theorem factory_engines_of_new (cfg : ResponseEngineFactoryConfig)
    (f : ResponseEngineFactory)
    (hf : NewResponseEngineFactory cfg = some f) :
    ∃ e1 e2 e3, mkV1Entry cfg.V1Config = some e1 ∧
      mkV2cEntry cfg.V2cConfig = some e2 ∧
      mkV3Entry cfg.V3Config = some e3 ∧
      f.engines .v1 = e1 ∧ f.engines .v2c = e2 ∧ f.engines .v3 = e3 := by
  simp only [NewResponseEngineFactory, bind, Option.bind_eq_some,
    pure, Option.some.injEq] at hf
  obtain ⟨e1, h1, e2, h2, e3, h3, hf⟩ := hf
  exact ⟨e1, e2, e3, h1, h2, h3, by rw [← hf], by rw [← hf], by rw [← hf]⟩

/-- A disabled v1 config still registers a (disabled) engine. -/
theorem mkV1Entry_disabled (c : V1EngineConfig) (e1 : Option EngineE)
    (hc : c.Enabled = false) (h : mkV1Entry (some c) = some e1) :
    ∃ eng, e1 = some (.v1v2c eng) ∧ eng.enabled = false := by
  simp only [mkV1Entry, NewV1_V2cResponseEngine, hc] at h
  simp at h
  exact ⟨_, h.symm, rfl⟩

/-- A disabled v2c config registers no engine. -/
theorem mkV2cEntry_disabled (c : V2cEngineConfig) (e2 : Option EngineE)
    (hc : c.Enabled = false) (h : mkV2cEntry (some c) = some e2) :
    e2 = none := by
  simp only [mkV2cEntry, hc] at h
  simp at h
  exact h.symm

/-- A disabled v3 config registers no engine. -/
theorem mkV3Entry_disabled (c : V3EngineConfig) (e3 : Option EngineE)
    (hc : c.Enabled = false) (h : mkV3Entry (some c) = some e3) :
    e3 = none := by
  simp only [mkV3Entry, hc] at h
  simp at h
  exact h.symm

/-- `ResponseRequest` outcome by engine-map entry: absent engine →
`unsupported-version`; present but disabled engine → `disabled-version`. -/
theorem responseRequest_entry_cases (f : ResponseEngineFactory)
    (decode : List Nat → Except Unit SnmpPacket)
    (marshal : SnmpPacket → Except Unit (List Nat))
    (writeToUDP : List Nat → Except Unit Nat)
    (raw : RawPacket) (d : List Nat) (v : SnmpVersion)
    (hd : raw.Data = some d) (hver : parseSNMPVersion d = .ok v) :
    (f.engines v = none →
      ResponseManager.ResponseRequest f decode marshal writeToUDP raw =
        (.error .unsupportedVersion, [])) ∧
    (∀ eng, f.engines v = some eng → eng.Enable = false →
      ResponseManager.ResponseRequest f decode marshal writeToUDP raw =
        (.error .disableVersion, [])) := by
  constructor
  · intro h
    simp [ResponseManager.ResponseRequest, hd, hver,
      ResponseEngineFactory.createEngine, h]
  · intro eng h hen
    simp [ResponseManager.ResponseRequest, hd, hver,
      ResponseEngineFactory.createEngine, h, hen]

/-- C2 (amended): a disabled configured v1 engine makes `respond` fail with
`disabled-version`, while a disabled configured v2c or v3 engine is never
registered, so `respond` fails with `unsupported-version`; in every such
failure the worker emits no TrapMessage. -/
theorem c2_disabled_engine_dispatch (cfg : ResponseEngineFactoryConfig)
    (f : ResponseEngineFactory)
    (hf : NewResponseEngineFactory cfg = some f)
    (decode : List Nat → Except Unit SnmpPacket)
    (marshal : SnmpPacket → Except Unit (List Nat))
    (writeToUDP : List Nat → Except Unit Nat)
    (raw : RawPacket) (d : List Nat) (hd : raw.Data = some d) :
    (∀ c, cfg.V1Config = some c → c.Enabled = false →
      parseSNMPVersion d = .ok .v1 →
      ResponseManager.ResponseRequest f decode marshal writeToUDP raw =
        (.error .disableVersion, [])) ∧
    (∀ c, cfg.V2cConfig = some c → c.Enabled = false →
      parseSNMPVersion d = .ok .v2c →
      ResponseManager.ResponseRequest f decode marshal writeToUDP raw =
        (.error .unsupportedVersion, [])) ∧
    (∀ c, cfg.V3Config = some c → c.Enabled = false →
      parseSNMPVersion d = .ok .v3 →
      ResponseManager.ResponseRequest f decode marshal writeToUDP raw =
        (.error .unsupportedVersion, [])) ∧
    (∀ lockRes egressReady err,
      ResponseManager.ResponseRequest f decode marshal writeToUDP raw =
        (.error err, []) →
      (TrapHandler.processTrap lockRes
          (ResponseManager.ResponseRequest f decode marshal writeToUDP)
          egressReady raw).emitted = []) := by
  obtain ⟨e1, e2, e3, h1, h2, h3, hv1, hv2, hv3⟩ :=
    factory_engines_of_new cfg f hf
  refine ⟨?_, ?_, ?_, ?_⟩
  · intro c hc hcen hver
    rw [hc] at h1
    obtain ⟨eng, he1, hen⟩ := mkV1Entry_disabled c e1 hcen h1
    refine (responseRequest_entry_cases f decode marshal writeToUDP raw d
      .v1 hd hver).2 (.v1v2c eng) (by rw [hv1, he1]) ?_
    simp [EngineE.Enable, V1_V2cResponseEngine.Enable, hen]
  · intro c hc hcen hver
    rw [hc] at h2
    have he2 := mkV2cEntry_disabled c e2 hcen h2
    exact (responseRequest_entry_cases f decode marshal writeToUDP raw d
      .v2c hd hver).1 (by rw [hv2, he2])
  · intro c hc hcen hver
    rw [hc] at h3
    have he3 := mkV3Entry_disabled c e3 hcen h3
    exact (responseRequest_entry_cases f decode marshal writeToUDP raw d
      .v3 hd hver).1 (by rw [hv3, he3])
  · intro lockRes egressReady err herr
    rcases lockRes with u | b
    · simp [TrapHandler.processTrap]
    · cases b
      · simp [TrapHandler.processTrap]
      · simp [TrapHandler.processTrap, herr]

/-- The disabled v1 engine config of the C2 witness. -/
def c2wV1Conf : V1EngineConfig :=
  { ReadCommunity := pubBytes, ReadWriteCommunity := privBytes,
    Enabled := false }

/-- The v1-only disabled config used in the C2 witness. -/
def c2wcfg : ResponseEngineFactoryConfig :=
  { V1Config := some c2wV1Conf, V2cConfig := none, V3Config := none }

/-- The factory built from `c2wcfg`. -/
def c2wfactory : ResponseEngineFactory :=
  (NewResponseEngineFactory c2wcfg).getD { engines := fun _ => none }

/-- Witness for C2 (amended): a disabled v1 engine yields
`disabled-version` on a concrete v1 datagram. -/
theorem c2_disabled_engine_dispatch_witness :
    ResponseManager.ResponseRequest c2wfactory (fun _ => .error ())
        (fun _ => .error ()) (fun _ => .error ())
        { Data := some [48, 3, 2, 1, 0] } =
      (.error .disableVersion, []) :=
  (c2_disabled_engine_dispatch c2wcfg c2wfactory rfl (fun _ => .error ())
    (fun _ => .error ()) (fun _ => .error ())
    { Data := some [48, 3, 2, 1, 0] } [48, 3, 2, 1, 0] rfl).1
    c2wV1Conf rfl rfl (by rfl)

end Baize
